import Mathlib

/-!
Verification of the inverse-destination-popularity data pipeline
(shallow embedding of `scripts/bronze_layer.py`, `scripts/silver_layer.py`,
`scripts/utils.py`, `scripts/download_from_gcp.py`).

Modelling conventions:
* pandas missing values (NaN/NaT) are `Option.none`; numbers are `ℚ`.
* `pd.to_numeric(col, errors=coerce)` and `pd.to_datetime(col, errors=coerce)`
  are modelled as already applied: a column that goes through such a coercion
  is represented as `Option ℚ` (resp. `Option Int` for parsed dates), `none`
  covering both originally-missing and unparsable values.
* `Series.astype(str)` turns a missing value into the literal string "nan";
  string columns produced this way are never missing afterwards.
* `DataFrame.drop_duplicates()` keeps the first occurrence of each row.
* The standard deviation used by the flight cleaner is `sqrt` of the sample
  variance (pandas `ddof=1`); the square root is irrational in general, so the
  chunk cleaner takes the deviation as an explicit `ℚ` parameter and every
  value-level theorem pins it with the hypotheses `0 ≤ σ` and `σ * σ = var`.
-/

set_option autoImplicit false

namespace Pipeline

/-! ### Python string primitives -/

/-- `Series.astype(str)` on one cell: a missing value renders as "nan". -/
def pyStr (o : Option String) : String :=
  match o with
  | some s => s
  | none => "nan"

/-- Python `str.strip()` (whitespace at both ends removed). -/
def pyStrip (s : String) : String :=
  String.mk (((s.data.dropWhile Char.isWhitespace).reverse.dropWhile
    Char.isWhitespace).reverse)

/-- Python `str.upper()` (ASCII model). -/
def pyUpper (s : String) : String := String.mk (s.data.map Char.toUpper)

/-- Python `str.lower()` (ASCII model). -/
def pyLower (s : String) : String := String.mk (s.data.map Char.toLower)

/-- Worker for `str.title()`: upper-case a letter that follows a non-letter,
lower-case a letter that follows a letter. -/
def pyTitleGo : Bool → List Char → List Char
  | _, [] => []
  | prevAlpha, c :: cs =>
    (if c.isAlpha then (if prevAlpha then c.toLower else c.toUpper) else c)
      :: pyTitleGo c.isAlpha cs

/-- Python `str.title()`. -/
def pyTitle (s : String) : String := String.mk (pyTitleGo false s.data)

/-! ### Numeric primitives -/

/-- `astype(int)` on a float value: truncation toward zero. -/
def ratTrunc (q : ℚ) : ℤ := if 0 ≤ q then ⌊q⌋ else ⌈q⌉

/-- numpy round-half-to-even on a rational, to an integer. -/
def roundHalfEven (q : ℚ) : ℤ :=
  let f := ⌊q⌋
  let r := q - (f : ℚ)
  if r < 1/2 then f
  else if (1:ℚ)/2 < r then f + 1
  else if f % 2 = 0 then f else f + 1

/-- `Series.round(6)`: round to 6 decimal places. -/
def round6 (q : ℚ) : ℚ := (roundHalfEven (q * 1000000) : ℚ) / 1000000

/-- `Series.clip(lower, upper)`: the lower bound is applied first. -/
def clip (lo hi x : ℚ) : ℚ := min (max x lo) hi

/-- Mean of a list of rationals (`Series.mean()` over the non-missing values). -/
def listMean (l : List ℚ) : ℚ := l.sum / (l.length : ℚ)

/-- Sample variance (`Series.std() ** 2`, pandas default `ddof = 1`);
`none` when fewer than two values are present (pandas yields NaN there). -/
def sampleVar (l : List ℚ) : Option ℚ :=
  if 2 ≤ l.length then
    some (((l.map fun x => (x - listMean l) ^ 2).sum) / ((l.length : ℚ) - 1))
  else none

/-! ### drop_duplicates -/

/-- Worker for `drop_duplicates`: keep the first occurrence of each row. -/
def dedupGo {α : Type} [DecidableEq α] (seen : List α) : List α → List α
  | [] => []
  | x :: xs => if x ∈ seen then dedupGo seen xs else x :: dedupGo (x :: seen) xs

/-- `DataFrame.drop_duplicates()` (all columns, keep first). -/
def dedup {α : Type} [DecidableEq α] (l : List α) : List α := dedupGo [] l

/-! ### Case-insensitive substring search (`Series.str.contains(pat, case=False, na=False)`) -/

/-- `needle` is an initial segment of `hay`. -/
def charsStart : List Char → List Char → Bool
  | [], _ => true
  | _ :: _, [] => false
  | a :: as, b :: bs => a == b && charsStart as bs

/-- `needle` occurs contiguously somewhere in `hay`. -/
def containsSub (needle : List Char) : List Char → Bool
  | [] => needle.isEmpty
  | c :: rest => charsStart needle (c :: rest) || containsSub needle rest

/-- One cell of `Series.str.contains(pat, case=False, na=False)`:
missing is no match, comparison ignores case. -/
def strContainsCI (o : Option String) (pat : String) : Bool :=
  match o with
  | none => false
  | some s => containsSub (pyLower pat).data (pyLower s).data

/-! ### utils.py -/

/-- One cell of the elementwise `series >= c` mask (NaN compares false). -/
def cmpGe (o : Option ℚ) (c : ℚ) : Bool :=
  match o with
  | some a => decide (c ≤ a)
  | none => false

/-- One cell of the elementwise `series <= c` mask (NaN compares false). -/
def cmpLe (o : Option ℚ) (c : ℚ) : Bool :=
  match o with
  | some a => decide (a ≤ c)
  | none => false

/-- `utils.validate_coordinates`, per row: both present, latitude in
[-90, 90], longitude in [-180, 180]. Pure: the inputs are not mutated. -/
def validate_coordinates (lat lon : Option ℚ) : Bool :=
  lat.isSome && lon.isSome &&
  cmpGe lat (-90) && cmpLe lat 90 &&
  cmpGe lon (-180) && cmpLe lon 180

/-! ### bronze_layer.py -/

/-- Outcome of one `shutil.copy2` call: either the call raises, or it
completes and the destination then exists (or not). -/
inductive CopyOutcome
  | raises
  | completed (destExists : Bool)
  deriving DecidableEq, Repr

/-- Status string written to the bronze log after the existence check. -/
def copyStatus (destExists : Bool) : String :=
  if destExists then "SUCCESS" else "FAILED"

/-- Destination-exists flag of an outcome (`false` for a raising copy,
which never reaches the existence check). -/
def completedExists : CopyOutcome → Bool
  | .raises => false
  | .completed b => b

/-- `BronzeLayer.copy_to_bronze`, over the `*.csv` files of the raw
directory paired with the outcome of their copy. Returns the written
log entries (file name, status) and `true` iff the loop ran to the end:
the loop body has no exception handler, so a raising copy stops the run
right there, with no status logged for that file and later files
untouched. -/
def copy_to_bronze : List (String × CopyOutcome) → List (String × String) × Bool
  | [] => ([], true)
  | (_, .raises) :: _ => ([], false)
  | (f, .completed ex) :: rest =>
    let r := copy_to_bronze rest
    ((f, copyStatus ex) :: r.1, r.2)

/-! ### download_from_gcp.py -/

/-- The module-level `GCP_URLS` table, in insertion order. -/
def GCP_URLS : List (String × String) :=
  [("attractions_data_USA.csv",
      "https://storage.googleapis.com/bdt_data_raw/cleaned_data_USA.csv"),
   ("poi_data_osm.csv",
      "https://storage.googleapis.com/bdt_data_raw/merged_file.csv"),
   ("flight_data_2018_2024.csv",
      "https://storage.googleapis.com/bdt_data_raw/flight_data_2018_2024.csv"),
   ("flight_data.parquet",
      "https://storage.googleapis.com/bdt_data_raw/flight_data.parquet")]

/-- `download_all_datasets`, with `download_file` abstracted as a boolean
oracle from (filename, url). Returns the call trace (filename, result) in
table order, and the function's return value
`success_count == total_count`. -/
def download_all_datasets (dl : String → String → Bool) :
    List (String × Bool) × Bool :=
  let results := GCP_URLS.map fun p => (p.1, dl p.1 p.2)
  let successCount := (results.filter fun p => p.2).length
  (results, successCount == GCP_URLS.length)

/-! ### silver_layer.py — flight data (`_clean_flight_chunk`, `clean_flight_data`)

Schema: the bronze flight file carries all the columns the cleaner touches
(`FlightDate`, `Origin`, `Dest`, `OriginCityName`, `DestCityName`,
`DepDelay`, `ArrDelay`, `Distance`, `AirTime`, `Cancelled`, `Diverted`),
so every `if col in df.columns` guard is taken. -/

/-- A bronze flight row. `flightDate` is the `pd.to_datetime(..., errors=coerce)`
result (`none` = missing or unparsable); the four airport text columns are raw
(`none` = missing cell); the numeric columns are the
`pd.to_numeric(..., errors=coerce)` results. -/
structure FlightRow where
  flightDate : Option Int
  origin : Option String
  dest : Option String
  originCityName : Option String
  destCityName : Option String
  depDelay : Option ℚ
  arrDelay : Option ℚ
  distance : Option ℚ
  airTime : Option ℚ
  cancelled : Option ℚ
  diverted : Option ℚ
  deriving DecidableEq, Repr

/-- A cleaned flight row. The airport columns went through
`astype(str).str.strip().str.upper()`, hence are `some` by construction, but
the frame keeps them as nullable object columns, which is what the final
`dropna` inspects. -/
structure FlightRowOut where
  flightDate : Option Int
  origin : Option String
  dest : Option String
  originCityName : Option String
  destCityName : Option String
  depDelay : Option ℚ
  arrDelay : Option ℚ
  distance : Option ℚ
  airTime : Option ℚ
  cancelled : Int
  diverted : Int
  isDelayed : Int
  route : Option String
  deriving DecidableEq, Repr

/-- Clip parameters for the two delay columns of one chunk: whether the
`std` guard fired, and the two bounds. -/
structure FlightParams where
  depG : Bool
  dLo : ℚ
  dHi : ℚ
  arrG : Bool
  aLo : ℚ
  aHi : ℚ
  deriving Repr

/-- The non-missing `DepDelay` values of a (deduplicated) chunk. -/
def depVals (d : List FlightRow) : List ℚ := d.filterMap FlightRow.depDelay

/-- The non-missing `ArrDelay` values of a (deduplicated) chunk. -/
def arrVals (d : List FlightRow) : List ℚ := d.filterMap FlightRow.arrDelay

/-- Step 4 statistics of `_clean_flight_chunk` on the deduplicated chunk `d`:
guard `not pd.isna(std) and std > 0` and bounds `mean ± 3 * std`. `σd`, `σa`
stand for the two columns' standard deviations (see the header note). -/
def flightStats (d : List FlightRow) (σd σa : ℚ) : FlightParams :=
  let μd := listMean (depVals d)
  let μa := listMean (arrVals d)
  { depG := (sampleVar (depVals d)).isSome && decide (0 < σd)
    dLo := μd - 3 * σd
    dHi := μd + 3 * σd
    arrG := (sampleVar (arrVals d)).isSome && decide (0 < σa)
    aLo := μa - 3 * σa
    aHi := μa + 3 * σa }

/-- `Series.clip(lower, upper)` over a nullable column, applied only when the
std guard fired (NaN entries stay NaN under pandas clip). -/
def applyClip (g : Bool) (lo hi : ℚ) (v : Option ℚ) : Option ℚ :=
  if g then v.map (clip lo hi) else v

/-- `df[DepDelay] > 15` on one cell (NaN compares false). -/
def optGT15 (o : Option ℚ) : Bool :=
  match o with
  | some y => decide (15 < y)
  | none => false

/-- Steps 2-6 of `_clean_flight_chunk` on one row (all of them elementwise
column operations): date parse (already applied in the model), airport text
coercion, numeric coercion plus guarded delay clip, `Cancelled`/`Diverted`
fill-and-cast, derived `IsDelayed` and `Route`. -/
def transformFlightRow (p : FlightParams) (r : FlightRow) : FlightRowOut :=
  let originS := pyUpper (pyStrip (pyStr r.origin))
  let destS := pyUpper (pyStrip (pyStr r.dest))
  let dep := applyClip p.depG p.dLo p.dHi r.depDelay
  { flightDate := r.flightDate
    origin := some originS
    dest := some destS
    originCityName := some (pyUpper (pyStrip (pyStr r.originCityName)))
    destCityName := some (pyUpper (pyStrip (pyStr r.destCityName)))
    depDelay := dep
    arrDelay := applyClip p.arrG p.aLo p.aHi r.arrDelay
    distance := r.distance
    airTime := r.airTime
    cancelled := ratTrunc (r.cancelled.getD 0)
    diverted := ratTrunc (r.diverted.getD 0)
    isDelayed := if optGT15 dep then 1 else 0
    route := some (originS ++ "-" ++ destS) }

/-- Step 7 of `_clean_flight_chunk`:
`df.dropna(subset=[FlightDate, Origin, Dest])`. -/
def dropnaCritical (rows : List FlightRowOut) : List FlightRowOut :=
  rows.filter fun r => r.flightDate.isSome && r.origin.isSome && r.dest.isSome

/-- `_clean_flight_chunk`: dedup, elementwise column transforms with the
chunk-local delay statistics, then the critical-column dropna. -/
def cleanFlightChunk (xs : List FlightRow) (σd σa : ℚ) : List FlightRowOut :=
  let d := dedup xs
  dropnaCritical (d.map (transformFlightRow (flightStats d σd σa)))

/-- `clean_flight_data`: clean each 100,000-row chunk (each paired with its
two delay standard deviations) and `pd.concat` the results; `pd.concat` of an
empty list raises. -/
def clean_flight_data (chunks : List (List FlightRow × ℚ × ℚ)) :
    Except String (List FlightRowOut) :=
  match chunks.map fun c => cleanFlightChunk c.1 c.2.1 c.2.2 with
  | [] => .error "No objects to concatenate"
  | cs => .ok cs.flatten

/-- Row count of a fallible frame (0 when the operation raised). -/
def exceptLen {α : Type} : Except String (List α) → Nat
  | .error _ => 0
  | .ok l => l.length

/-- Did the fallible operation succeed? -/
def exceptIsOk {α : Type} : Except String (List α) → Bool
  | .error _ => false
  | .ok _ => true

/-! ### silver_layer.py — POI data (`_clean_poi_chunk`, `clean_poi_data`)

Schema: the bronze POI file carries `latitude` and `longitude` under those
names (so step 2's renames are no-ops) together with the whole essential
column list, so step 8's projection keeps every field of the row type. -/

/-- A bronze POI row. Coordinates are the `pd.to_numeric(..., errors=coerce)`
results; the other columns are raw nullable text. -/
structure PoiRow where
  latitude : Option ℚ
  longitude : Option ℚ
  name : Option String
  amenity : Option String
  tourism : Option String
  shop : Option String
  cuisine : Option String
  addrCity : Option String
  addrState : Option String
  addrStreet : Option String
  addrPostcode : Option String
  phone : Option String
  website : Option String
  openingHours : Option String
  deriving DecidableEq, Repr

/-- A cleaned POI row (coordinates validated and rounded; text columns
standardized; `phone`, `website`, `opening_hours` untouched). -/
structure PoiRowOut where
  latitude : Option ℚ
  longitude : Option ℚ
  name : Option String
  amenity : Option String
  tourism : Option String
  shop : Option String
  cuisine : Option String
  addrCity : String
  addrState : String
  addrStreet : String
  addrPostcode : String
  phone : Option String
  website : Option String
  openingHours : Option String
  deriving DecidableEq, Repr

/-- Step 6 on one `name` cell: `astype(str).str.strip()` then replace the
literal "nan", "None" and empty string by NaN. -/
def cleanName (o : Option String) : Option String :=
  let s := pyStrip (pyStr o)
  if s = "nan" ∨ s = "None" ∨ s = "" then none else some s

/-- Step 7 on one category cell (`amenity`/`tourism`/`shop`/`cuisine`):
`astype(str).str.strip().str.lower()` then replace "nan", "none", "" by NaN. -/
def cleanCategory (o : Option String) : Option String :=
  let s := pyLower (pyStrip (pyStr o))
  if s = "nan" ∨ s = "none" ∨ s = "" then none else some s

/-- Step 4 on one address cell: `astype(str).str.strip().str.title()`. -/
def cleanAddr (o : Option String) : String := pyTitle (pyStrip (pyStr o))

/-- Step 3's row mask: both coordinates present and inside
[-90, 90] x [-180, 180]. -/
def poiCoordOk (r : PoiRow) : Bool :=
  match r.latitude, r.longitude with
  | some a, some b =>
    decide (-90 ≤ a) && decide (a ≤ 90) && decide (-180 ≤ b) && decide (b ≤ 180)
  | _, _ => false

/-- Steps 3 (rounding part) to 8 of `_clean_poi_chunk` on one surviving row. -/
def transformPoiRow (r : PoiRow) : PoiRowOut :=
  { latitude := r.latitude.map round6
    longitude := r.longitude.map round6
    name := cleanName r.name
    amenity := cleanCategory r.amenity
    tourism := cleanCategory r.tourism
    shop := cleanCategory r.shop
    cuisine := cleanCategory r.cuisine
    addrCity := cleanAddr r.addrCity
    addrState := pyUpper (cleanAddr r.addrState)
    addrStreet := cleanAddr r.addrStreet
    addrPostcode := cleanAddr r.addrPostcode
    phone := r.phone
    website := r.website
    openingHours := r.openingHours }

/-- `_clean_poi_chunk`: dedup, coordinate validation filter, then the
elementwise column standardizations and the projection. -/
def cleanPoiChunk (xs : List PoiRow) : List PoiRowOut :=
  (((dedup xs).filter poiCoordOk).map transformPoiRow)

/-- `clean_poi_data`: clean each 50,000-row chunk, keep only chunks that
still have rows (`if len(cleaned_chunk) > 0`), then `pd.concat`; concat of
an empty list raises `ValueError`. -/
def clean_poi_data (chunks : List (List PoiRow)) :
    Except String (List PoiRowOut) :=
  match (chunks.map cleanPoiChunk).filter (fun c => 0 < c.length) with
  | [] => .error "No objects to concatenate"
  | cs => .ok cs.flatten

/-! ### silver_layer.py — attractions data (`clean_attractions_data`)

Schema: the attractions file carries `name`, `city`, `state`, `address`,
`rating`, `reviews`, `main_category`, `zipcode`, `categories`, so every
`if col in df.columns` guard is taken. -/

/-- One cell of `Series.str.extract(r(\x64{5}))`: scan left to right for the
first position where five consecutive digit characters start. -/
def find5Digits : List Char → Option (List Char)
  | [] => none
  | c :: rest =>
    if ((c :: rest).take 5).length = 5 ∧ ((c :: rest).take 5).all Char.isDigit
    then some ((c :: rest).take 5)
    else find5Digits rest

/-- Step 6 on one `zipcode` cell: `astype(str)` then the regex extraction;
no match yields NaN. -/
def zipExtract (o : Option String) : Option String :=
  (find5Digits (pyStr o).data).map fun l => String.mk l

/-- A bronze attractions row. `rating` and `reviews` are the
`pd.to_numeric(..., errors=coerce)` results; the rest is raw nullable text. -/
structure AttrRow where
  name : Option String
  city : Option String
  state : Option String
  address : Option String
  rating : Option ℚ
  reviews : Option ℚ
  main_category : Option String
  zipcode : Option String
  categories : Option String
  deriving DecidableEq, Repr

/-- A cleaned attractions row; `categories` itself is untouched, the three
flag columns are derived from it. -/
structure AttrRowOut where
  name : String
  city : String
  state : String
  address : String
  rating : Option ℚ
  reviews : Int
  main_category : Option String
  zipcode : Option String
  categories : Option String
  is_museum : Int
  is_park : Int
  is_historical : Int
  deriving DecidableEq, Repr

/-- Steps 2-7 of `clean_attractions_data` on one row (all elementwise). -/
def transformAttrRow (r : AttrRow) : AttrRowOut :=
  { name := pyStrip (pyStr r.name)
    city := pyStrip (pyStr r.city)
    state := pyUpper (pyStrip (pyStr r.state))
    address := pyStrip (pyStr r.address)
    rating := r.rating.map (clip 0 5)
    reviews := ratTrunc (r.reviews.getD 0)
    main_category := r.main_category.map fun s => pyTitle (pyStrip s)
    zipcode := zipExtract r.zipcode
    categories := r.categories
    is_museum := if strContainsCI r.categories "Museum" then 1 else 0
    is_park := if strContainsCI r.categories "Park" then 1 else 0
    is_historical := if strContainsCI r.categories "Historical" then 1 else 0 }

/-- `clean_attractions_data`: dedup then the elementwise cleaning steps
(no step of this routine drops further rows). -/
def clean_attractions_data (rows : List AttrRow) : List AttrRowOut :=
  (dedup rows).map transformAttrRow

/-! ### Spec-side definition for the zipcode claim (refinement comparison) -/

/-- Worker for `digitRuns`: the second argument is the current digit run,
reversed, when one is open. -/
def digitRunsGo : List Char → Option (List Char) → List (List Char)
  | [], none => []
  | [], some run => [run.reverse]
  | c :: cs, none =>
    if c.isDigit then digitRunsGo cs (some [c]) else digitRunsGo cs none
  | c :: cs, some run =>
    if c.isDigit then digitRunsGo cs (some (c :: run))
    else run.reverse :: digitRunsGo cs none

/-- The maximal digit runs of a character list, left to right. -/
def digitRuns (l : List Char) : List (List Char) := digitRunsGo l none

/-- Modelled from the spec: "extract the first contiguous run of exactly
5 digits found anywhere in the value; if no such run exists, the result is
missing" — the first MAXIMAL digit run of length exactly 5. -/
def specZipFirstRun (s : String) : Option String :=
  (((digitRuns s.data).filter fun run => run.length = 5).head?).map
    fun l => String.mk l

/-- Five consecutive digit characters start at index `i` of `l`. -/
def fiveDigitsAt (l : List Char) (i : Nat) : Bool :=
  decide (((l.drop i).take 5).length = 5) && ((l.drop i).take 5).all Char.isDigit

/-! ### Concrete rows used by several theorems below -/

/-- An attractions row whose only populated cell is
`categories = "History Museum"`. -/
def attrHistoryMuseum : AttrRow :=
  { name := none, city := none, state := none, address := none,
    rating := none, reviews := none, main_category := none, zipcode := none,
    categories := some "History Museum" }

/-- An attractions row with every cell missing. -/
def attrAllMissing : AttrRow :=
  { name := none, city := none, state := none, address := none,
    rating := none, reviews := none, main_category := none, zipcode := none,
    categories := none }

/-- An attractions row whose review count is the (negative) number -3. -/
def attrNegReviews : AttrRow :=
  { name := none, city := none, state := none, address := none,
    rating := none, reviews := some (-3), main_category := none,
    zipcode := none, categories := none }

/-- An attractions row whose review count is 3. -/
def attrPosReviews : AttrRow :=
  { name := none, city := none, state := none, address := none,
    rating := none, reviews := some 3, main_category := none,
    zipcode := none, categories := none }

/-- A POI row whose latitude (200) is out of range. -/
def poiBadRow : PoiRow :=
  { latitude := some 200, longitude := some 0, name := none, amenity := none,
    tourism := none, shop := none, cuisine := none, addrCity := none,
    addrState := none, addrStreet := none, addrPostcode := none,
    phone := none, website := none, openingHours := none }

/-- A tiny flight row for witnesses. -/
def flightRowW (d : Int) (dep arr : ℚ) : FlightRow :=
  { flightDate := some d, origin := some "JFK", dest := some "LAX",
    originCityName := none, destCityName := none, depDelay := some dep,
    arrDelay := some arr, distance := none, airTime := none,
    cancelled := none, diverted := none }

/-- A three-row flight chunk whose delay columns both have mean 2 and
sample standard deviation exactly 2. -/
def flightChunkW : List FlightRow :=
  [flightRowW 0 0 0, flightRowW 1 2 2, flightRowW 2 4 4]

/-- A flight row whose `Origin` cell is missing. -/
def flightRowNoOrigin : FlightRow :=
  { flightDate := some 0, origin := none, dest := some "lax",
    originCityName := none, destCityName := none, depDelay := none,
    arrDelay := none, distance := none, airTime := none,
    cancelled := none, diverted := none }

/-! ### Shared helper lemmas -/

theorem charsStart_iff (n : List Char) :
    ∀ h : List Char, charsStart n h = true ↔ ∃ t, h = n ++ t := by
  induction n with
  | nil => intro h; simp [charsStart]
  | cons a as ih =>
    intro h
    cases h with
    | nil => simp [charsStart]
    | cons b bs =>
      simp only [charsStart, Bool.and_eq_true, beq_iff_eq, ih,
        List.cons_append, List.cons.injEq]
      constructor
      · rintro ⟨rfl, t, rfl⟩; exact ⟨t, rfl, rfl⟩
      · rintro ⟨t, rfl, rfl⟩; exact ⟨rfl, t, rfl⟩

theorem containsSub_iff (n : List Char) :
    ∀ h : List Char, containsSub n h = true ↔ ∃ pre post, h = pre ++ n ++ post := by
  intro h
  induction h with
  | nil =>
    simp only [containsSub, List.isEmpty_iff]
    constructor
    · rintro rfl; exact ⟨[], [], rfl⟩
    · rintro ⟨pre, post, hp⟩
      rcases List.append_eq_nil.mp (List.append_eq_nil.mp hp.symm).1 with ⟨-, h2⟩
      exact h2
  | cons c cs ih =>
    simp only [containsSub, Bool.or_eq_true, charsStart_iff, ih]
    constructor
    · rintro (⟨t, ht⟩ | ⟨pre, post, hp⟩)
      · exact ⟨[], t, by simp [ht]⟩
      · exact ⟨c :: pre, post, by simp [hp]⟩
    · rintro ⟨pre, post, hp⟩
      cases pre with
      | nil => exact Or.inl ⟨post, by simpa using hp⟩
      | cons p ps =>
        simp only [List.cons_append, List.cons.injEq] at hp
        exact Or.inr ⟨ps, post, hp.2⟩

theorem dedupGo_subset {α : Type} [DecidableEq α] (seen : List α) (l : List α) :
    ∀ a, a ∈ dedupGo seen l → a ∈ l := by
  induction l generalizing seen with
  | nil => intro a h; simp [dedupGo] at h
  | cons x xs ih =>
    intro a h
    by_cases hx : x ∈ seen
    · simp only [dedupGo, if_pos hx] at h
      exact List.mem_cons_of_mem _ (ih seen a h)
    · simp only [dedupGo, if_neg hx, List.mem_cons] at h
      rcases h with rfl | h
      · exact List.mem_cons_self _ _
      · exact List.mem_cons_of_mem _ (ih _ a h)

theorem dedup_subset {α : Type} [DecidableEq α] (l : List α) :
    ∀ a, a ∈ dedup l → a ∈ l :=
  dedupGo_subset [] l

theorem dedupGo_length {α : Type} [DecidableEq α] (seen : List α) (l : List α) :
    (dedupGo seen l).length ≤ l.length := by
  induction l generalizing seen with
  | nil => simp [dedupGo]
  | cons x xs ih =>
    by_cases hx : x ∈ seen
    · simp only [dedupGo, if_pos hx]
      exact (ih seen).trans (Nat.le_succ _)
    · simp only [dedupGo, if_neg hx, List.length_cons]
      exact Nat.succ_le_succ (ih _)

theorem dedup_length {α : Type} [DecidableEq α] (l : List α) :
    (dedup l).length ≤ l.length :=
  dedupGo_length [] l

theorem clip_le (lo hi x : ℚ) : clip lo hi x ≤ hi := min_le_right _ _

theorem le_clip (lo hi x : ℚ) (h : lo ≤ hi) : lo ≤ clip lo hi x :=
  le_min (le_max_right _ _) h

theorem filter_snd_count (l : List (String × Bool)) :
    ((l.filter fun p => p.2).length = l.length) ↔
      ((l.map Prod.snd).all fun b => b) = true := by
  induction l with
  | nil => simp
  | cons p ps ih =>
    cases hp : p.2 with
    | true => simp [List.filter_cons, hp, ih]
    | false =>
      have hle := List.length_filter_le (fun p : String × Bool => p.2) ps
      simp [List.filter_cons, hp]
      omega

/-! ### Claim theorems -/

/-- C5: `validate_coordinates` is true on a row iff both values are present,
latitude ∈ [-90, 90] and longitude ∈ [-180, 180]; it is true at the exact
boundaries (90, 180) and (-90, -180), false at (90.0001, 0) and
(0, 180.0001), and false whenever either value is missing. As a pure
function of its per-row inputs it mutates nothing. -/
theorem C5_validate_coordinates :
    (∀ lat lon : Option ℚ, validate_coordinates lat lon = true ↔
      ∃ a b : ℚ, lat = some a ∧ lon = some b ∧
        -90 ≤ a ∧ a ≤ 90 ∧ -180 ≤ b ∧ b ≤ 180)
    ∧ validate_coordinates (some 90) (some 180) = true
    ∧ validate_coordinates (some (-90)) (some (-180)) = true
    ∧ validate_coordinates (some (900001/10000)) (some 0) = false
    ∧ validate_coordinates (some 0) (some (1800001/10000)) = false
    ∧ (∀ lon : Option ℚ, validate_coordinates none lon = false)
    ∧ (∀ lat : Option ℚ, validate_coordinates lat none = false) := by
  refine ⟨?_, by decide, by decide,
    by norm_num [validate_coordinates, cmpGe, cmpLe],
    by norm_num [validate_coordinates, cmpGe, cmpLe], ?_, ?_⟩
  · intro lat lon
    cases lat with
    | none => simp [validate_coordinates]
    | some a =>
      cases lon with
      | none => simp [validate_coordinates]
      | some b => simp [validate_coordinates, cmpGe, cmpLe, and_assoc]
  · intro lon; simp [validate_coordinates]
  · intro lat; simp [validate_coordinates]

/-- C8: `download_all_datasets` invokes the downloader once per entry of the
fixed four-entry `GCP_URLS` table, in table order, and returns true iff every
one of the four downloads succeeded (so any single failure makes the result
false). -/
theorem C8_download_all_datasets (dl : String → String → Bool) :
    (download_all_datasets dl).1 = (GCP_URLS.map fun p => (p.1, dl p.1 p.2))
    ∧ (download_all_datasets dl).1.length = 4
    ∧ ((download_all_datasets dl).2 = true ↔
        ((GCP_URLS.map fun p => dl p.1 p.2).all fun b => b) = true) := by
  refine ⟨rfl, by simp [download_all_datasets, GCP_URLS], ?_⟩
  show (((GCP_URLS.map fun p => (p.1, dl p.1 p.2)).filter fun p => p.2).length
      == GCP_URLS.length) = true ↔ _
  rw [show GCP_URLS.length = (GCP_URLS.map fun p => (p.1, dl p.1 p.2)).length
      from (List.length_map _ _).symm]
  simp only [beq_iff_eq]
  rw [filter_snd_count]
  rw [List.map_map]
  rfl

/-- C1 counterexample: when a copy itself fails by raising (the first file
here) while a second file is still pending, `copy_to_bronze` stops at the
raise: no Status: FAILED entry is logged for the failing file and the second
file is never processed, so a single failed copy does abort the whole run. -/
theorem C1_counterexample :
    copy_to_bronze
        [("a.csv", CopyOutcome.raises), ("b.csv", CopyOutcome.completed true)]
      = ([], false) := rfl

/-- C1 (amended): the per-file FAILED report with continuation only covers a
copy that COMPLETES with the destination then absent: in every run whose
copy calls all complete, each file gets exactly one log entry in input order
(FAILED exactly when the destination is missing) and the loop runs to the
end. A copy that raises instead aborts the run (see the counterexample). -/
theorem C1_amended (files : List (String × CopyOutcome))
    (h : ∀ p ∈ files, p.2 ≠ CopyOutcome.raises) :
    copy_to_bronze files
      = (files.map fun p => (p.1, copyStatus (completedExists p.2)), true) := by
  induction files with
  | nil => rfl
  | cons p ps ih =>
    obtain ⟨f, o⟩ := p
    cases o with
    | raises => exact absurd rfl (h (f, CopyOutcome.raises) (List.mem_cons_self _ _))
    | completed ex =>
      have hr := ih fun q hq => h q (List.mem_cons_of_mem _ hq)
      simp only [copy_to_bronze, hr, List.map_cons, completedExists]

/-- C1 witness: a concrete all-completing run with one missing destination:
both files are logged, the second as FAILED, and the loop finishes. -/
theorem C1_witness :
    copy_to_bronze
        [("a.csv", CopyOutcome.completed true), ("b.csv", CopyOutcome.completed false)]
      = ([("a.csv", "SUCCESS"), ("b.csv", "FAILED")], true) := by
  have h := C1_amended
      [("a.csv", CopyOutcome.completed true), ("b.csv", CopyOutcome.completed false)]
      (by decide)
  exact h.trans (by rfl)

/-- C10: a non-empty POI input whose every chunk becomes empty after cleaning
(here one chunk whose single row has the invalid latitude 200) makes
`clean_poi_data` raise at the concatenation step, because empty chunks are
excluded and `pd.concat` of an empty list raises; in general the operation
succeeds iff at least one chunk retains at least one row. -/
theorem C10_poi_all_chunks_empty :
    clean_poi_data [[poiBadRow]] = Except.error "No objects to concatenate"
    ∧ ∀ chunks : List (List PoiRow),
        (exceptIsOk (clean_poi_data chunks) = true ↔
          ((chunks.map cleanPoiChunk).any fun l => !l.isEmpty) = true) := by
  constructor
  · rfl
  · intro chunks
    unfold clean_poi_data
    cases hf : (chunks.map cleanPoiChunk).filter fun c => 0 < c.length with
    | nil =>
      simp only [exceptIsOk, Bool.false_eq_true, false_iff]
      intro hany
      rcases List.any_eq_true.mp hany with ⟨l, hl, hne⟩
      have hpos : 0 < l.length := by
        cases l with
        | nil => simp at hne
        | cons a as => simp
      have : l ∈ (chunks.map cleanPoiChunk).filter fun c => 0 < c.length :=
        List.mem_filter.mpr ⟨hl, by simpa using hpos⟩
      rw [hf] at this
      simp at this
    | cons a as =>
      simp only [exceptIsOk, true_iff]
      have ha : a ∈ (chunks.map cleanPoiChunk).filter fun c => 0 < c.length := by
        rw [hf]; exact List.mem_cons_self _ _
      rcases List.mem_filter.mp ha with ⟨hmem, hpos⟩
      refine List.any_eq_true.mpr ⟨a, hmem, ?_⟩
      cases a with
      | nil => simp at hpos
      | cons x xs => simp

/-- C2 counterexample: cleaning a row whose `categories` value is
"History Museum" yields is_museum = 1, is_park = 0 and is_historical = 0 —
not is_historical = 1 as claimed: the text "Historical" does not occur in
"History Museum". -/
theorem C2_counterexample :
    (clean_attractions_data [attrHistoryMuseum]).map
        (fun r => (r.is_museum, r.is_park, r.is_historical)) = [(1, 0, 0)] := by
  decide

/-- C2 (amended): each cleaned row's three flag columns derive from its
`categories` value exactly by case-insensitive substring containment, with a
missing value giving 0 on all three; a `categories` value of "History Museum"
yields is_museum = 1, is_park = 0 and is_historical = 0 (the substring
"Historical" does not occur there), and a missing value yields (0, 0, 0). -/
theorem C2_amended :
    (∀ rows : List AttrRow, ∀ r ∈ clean_attractions_data rows,
      r.is_museum = (if strContainsCI r.categories "Museum" then 1 else 0)
      ∧ r.is_park = (if strContainsCI r.categories "Park" then 1 else 0)
      ∧ r.is_historical = (if strContainsCI r.categories "Historical" then 1 else 0))
    ∧ (∀ (o : Option String) (pat : String),
        strContainsCI o pat = true ↔
          ∃ s pre post, o = some s ∧
            (pyLower s).data = pre ++ (pyLower pat).data ++ post)
    ∧ (clean_attractions_data [attrHistoryMuseum]).map
        (fun r => (r.is_museum, r.is_park, r.is_historical)) = [(1, 0, 0)]
    ∧ (clean_attractions_data [attrAllMissing]).map
        (fun r => (r.is_museum, r.is_park, r.is_historical)) = [(0, 0, 0)] := by
  refine ⟨?_, ?_, by decide, by decide⟩
  · intro rows r hr
    obtain ⟨a, _, rfl⟩ := List.mem_map.mp hr
    exact ⟨rfl, rfl, rfl⟩
  · intro o pat
    cases o with
    | none => simp [strContainsCI]
    | some s =>
      simp only [strContainsCI, containsSub_iff, Option.some.injEq]
      constructor
      · rintro ⟨pre, post, hp⟩
        exact ⟨s, pre, post, rfl, hp⟩
      · rintro ⟨t, pre, post, hts, hp⟩
        subst hts
        exact ⟨pre, post, hp⟩

/-- C2 witness: the flag rule of the amended claim, instantiated at the
cleaned "History Museum" row. -/
theorem C2_witness :
    (transformAttrRow attrHistoryMuseum).is_museum
      = (if strContainsCI (transformAttrRow attrHistoryMuseum).categories "Museum"
          then 1 else 0) :=
  (C2_amended.1 [attrHistoryMuseum] (transformAttrRow attrHistoryMuseum)
    (by decide)).1

theorem find5Digits_spec (l : List Char) :
    match find5Digits l with
    | some z => ∃ i, fiveDigitsAt l i = true ∧ z = (l.drop i).take 5
        ∧ ∀ j, j < i → fiveDigitsAt l j = false
    | none => ∀ i, fiveDigitsAt l i = false := by
  induction l with
  | nil =>
    intro i
    simp [find5Digits, fiveDigitsAt]
  | cons c cs ih =>
    by_cases h : ((c :: cs).take 5).length = 5 ∧ ((c :: cs).take 5).all Char.isDigit
    · simp only [find5Digits, if_pos h]
      refine ⟨0, ?_, rfl, fun j hj => absurd hj (Nat.not_lt_zero j)⟩
      rw [fiveDigitsAt, List.drop_zero, h.2, Bool.and_true]
      exact decide_eq_true h.1
    · simp only [find5Digits, if_neg h]
      have h0 : fiveDigitsAt (c :: cs) 0 = false := by
        rw [fiveDigitsAt, List.drop_zero]
        rcases not_and_or.mp h with h1 | h2
        · rw [decide_eq_false h1, Bool.false_and]
        · rw [Bool.eq_false_iff.mpr h2, Bool.and_false]
      cases hf : find5Digits cs with
      | none =>
        rw [hf] at ih
        intro i
        cases i with
        | zero => exact h0
        | succ j => simpa [fiveDigitsAt] using ih j
      | some z =>
        rw [hf] at ih
        obtain ⟨i, h1, h2, h3⟩ := ih
        refine ⟨i + 1, by simpa [fiveDigitsAt] using h1, by simpa using h2, ?_⟩
        intro j hj
        cases j with
        | zero => exact h0
        | succ j' =>
          have := h3 j' (Nat.lt_of_succ_lt_succ hj)
          simpa [fiveDigitsAt] using this

/-- C3 counterexample: on the text "123456" the code extracts "12345" (the
first five digits of a six-digit run), but the input contains no contiguous
maximal run of exactly five digits, for which the claim prescribes a missing
result. -/
theorem C3_counterexample :
    zipExtract (some "123456") = some "12345"
    ∧ specZipFirstRun "123456" = none := by
  constructor <;> decide

/-- C3 (amended): the cleaned zipcode is the earliest occurrence of five
consecutive digits in the text form of the value — possibly the head of a
longer digit run — and is missing exactly when five consecutive digits occur
nowhere; "CA 90210-1234" yields "90210", and "123456" yields "12345" rather
than missing. -/
theorem C3_amended :
    (∀ o : Option String,
      match zipExtract o with
      | some z => ∃ i, fiveDigitsAt (pyStr o).data i = true
          ∧ z.data = ((pyStr o).data.drop i).take 5
          ∧ ∀ j, j < i → fiveDigitsAt (pyStr o).data j = false
      | none => ∀ i, fiveDigitsAt (pyStr o).data i = false)
    ∧ zipExtract (some "CA 90210-1234") = some "90210"
    ∧ zipExtract (some "123456") = some "12345" := by
  refine ⟨?_, by decide, by decide⟩
  intro o
  have h := find5Digits_spec (pyStr o).data
  unfold zipExtract
  cases hf : find5Digits (pyStr o).data with
  | none =>
    rw [hf] at h
    simpa using h
  | some z =>
    rw [hf] at h
    obtain ⟨i, h1, h2, h3⟩ := h
    exact ⟨i, h1, by simpa using h2, h3⟩

/-- C3 witness: the amended characterization instantiated at
"CA 90210-1234", whose extraction is "90210". -/
theorem C3_witness :
    ∃ i, fiveDigitsAt (pyStr (some "CA 90210-1234")).data i = true
      ∧ ("90210" : String).data = ((pyStr (some "CA 90210-1234")).data.drop i).take 5
      ∧ ∀ j, j < i → fiveDigitsAt (pyStr (some "CA 90210-1234")).data j = false := by
  have h := C3_amended.1 (some "CA 90210-1234")
  exact h

/-- C4 counterexample: a reviews value of -3 survives attractions cleaning
as the negative integer -3: the cleaned reviews column is not non-negative
for every input. -/
theorem C4_counterexample :
    (clean_attractions_data [attrNegReviews]).map (fun r => r.reviews)
      = [-3] := by
  decide

/-- C4 (amended): every cleaned reviews value is an integer, with a missing
or unparsable value becoming 0; the column is non-negative whenever every
parsable input reviews value is non-negative, but a negative numeric input
passes through as a negative integer (the routine never clamps at 0). -/
theorem C4_amended :
    (∀ rows : List AttrRow,
      (∀ r ∈ rows, ∀ q : ℚ, r.reviews = some q → 0 ≤ q) →
      ∀ s ∈ clean_attractions_data rows, 0 ≤ s.reviews)
    ∧ ratTrunc ((none : Option ℚ).getD 0) = 0 := by
  refine ⟨?_, by decide⟩
  intro rows h s hs
  obtain ⟨a, ha, rfl⟩ := List.mem_map.mp hs
  have ha' : a ∈ rows := dedup_subset rows a ha
  show 0 ≤ ratTrunc (a.reviews.getD 0)
  cases hq : a.reviews with
  | none => decide
  | some q =>
    have hq0 : 0 ≤ q := h a ha' q hq
    simp only [Option.getD_some]
    rw [ratTrunc, if_pos hq0]
    exact Int.le_floor.mpr (by exact_mod_cast hq0)

/-- C4 witness: the amended claim at a one-row input whose reviews value
is 3. -/
theorem C4_witness : 0 ≤ (transformAttrRow attrPosReviews).reviews := by
  refine C4_amended.1 [attrPosReviews] ?_ (transformAttrRow attrPosReviews) (by decide)
  intro r hr q hq
  rw [List.mem_singleton] at hr
  subst hr
  rw [show attrPosReviews.reviews = some 3 from rfl, Option.some.injEq] at hq
  rw [← hq]
  norm_num

/-! ### Flight-cleaner helper lemmas -/

theorem transform_flightDate (p : FlightParams) (r : FlightRow) :
    (transformFlightRow p r).flightDate = r.flightDate := rfl

theorem transform_origin (p : FlightParams) (r : FlightRow) :
    (transformFlightRow p r).origin = some (pyUpper (pyStrip (pyStr r.origin))) := rfl

theorem transform_dest (p : FlightParams) (r : FlightRow) :
    (transformFlightRow p r).dest = some (pyUpper (pyStrip (pyStr r.dest))) := rfl

theorem transform_route (p : FlightParams) (r : FlightRow) :
    (transformFlightRow p r).route
      = some (pyUpper (pyStrip (pyStr r.origin)) ++ "-"
          ++ pyUpper (pyStrip (pyStr r.dest))) := rfl

theorem transform_depDelay (p : FlightParams) (r : FlightRow) :
    (transformFlightRow p r).depDelay = applyClip p.depG p.dLo p.dHi r.depDelay := rfl

theorem transform_arrDelay (p : FlightParams) (r : FlightRow) :
    (transformFlightRow p r).arrDelay = applyClip p.arrG p.aLo p.aHi r.arrDelay := rfl

theorem flightStats_dLo (d : List FlightRow) (σd σa : ℚ) :
    (flightStats d σd σa).dLo = listMean (depVals d) - 3 * σd := rfl

theorem flightStats_dHi (d : List FlightRow) (σd σa : ℚ) :
    (flightStats d σd σa).dHi = listMean (depVals d) + 3 * σd := rfl

theorem flightStats_aLo (d : List FlightRow) (σd σa : ℚ) :
    (flightStats d σd σa).aLo = listMean (arrVals d) - 3 * σa := rfl

theorem flightStats_aHi (d : List FlightRow) (σd σa : ℚ) :
    (flightStats d σd σa).aHi = listMean (arrVals d) + 3 * σa := rfl

theorem dropnaCritical_cons (r : FlightRowOut) (rest : List FlightRowOut) :
    dropnaCritical (r :: rest)
      = if (r.flightDate.isSome && r.origin.isSome && r.dest.isSome) = true
        then r :: dropnaCritical rest else dropnaCritical rest := by
  rw [dropnaCritical, dropnaCritical, List.filter_cons]

theorem dropna_map_length (p : FlightParams) (d : List FlightRow) :
    (dropnaCritical (d.map (transformFlightRow p))).length
      = (d.filter fun r => r.flightDate.isSome).length := by
  induction d with
  | nil => rfl
  | cons r rs ih =>
    rw [List.map_cons, dropnaCritical_cons, transform_flightDate, transform_origin,
      transform_dest, List.filter_cons]
    simp only [Option.isSome_some, Bool.and_true]
    cases hr : r.flightDate.isSome with
    | true => simp only [if_true, List.length_cons, ih]
    | false => simpa using ih

theorem cleanFlightChunk_length (xs : List FlightRow) (σd σa : ℚ) :
    (cleanFlightChunk xs σd σa).length ≤ xs.length := by
  rw [cleanFlightChunk, dropna_map_length]
  exact (List.length_filter_le _ _).trans (dedup_length xs)

theorem cleanPoiChunk_length (xs : List PoiRow) :
    (cleanPoiChunk xs).length ≤ xs.length := by
  rw [cleanPoiChunk, List.length_map]
  exact (List.length_filter_le _ _).trans (dedup_length xs)

theorem flight_flatten_le (chunks : List (List FlightRow × ℚ × ℚ)) :
    ((chunks.map fun c => cleanFlightChunk c.1 c.2.1 c.2.2).flatten).length
      ≤ (chunks.map fun c => c.1.length).sum := by
  induction chunks with
  | nil => simp
  | cons c cs ih =>
    simp only [List.map_cons, List.flatten_cons, List.length_append, List.sum_cons]
    exact Nat.add_le_add (cleanFlightChunk_length c.1 c.2.1 c.2.2) ih

theorem poi_flatten_le (chunks : List (List PoiRow)) :
    (((chunks.map cleanPoiChunk).filter fun c => 0 < c.length).flatten).length
      ≤ (chunks.map List.length).sum := by
  induction chunks with
  | nil => simp
  | cons c cs ih =>
    simp only [List.map_cons, List.filter_cons, List.sum_cons]
    by_cases hc : 0 < (cleanPoiChunk c).length
    · rw [if_pos (by exact decide_eq_true hc)]
      simp only [List.flatten_cons, List.length_append]
      exact Nat.add_le_add (cleanPoiChunk_length c) ih
    · rw [if_neg (by simpa using hc)]
      exact ih.trans (Nat.le_add_left _ _)

/-- C7: each of the three cleaning routines only ever removes rows (or caps
values in place): the cleaned flight, POI and attractions outputs all have
row counts bounded by their bronze inputs' row counts, for every input. -/
theorem C7_row_counts :
    (∀ chunks : List (List FlightRow × ℚ × ℚ),
        exceptLen (clean_flight_data chunks)
          ≤ (chunks.map fun c => c.1.length).sum)
    ∧ (∀ chunks : List (List PoiRow),
        exceptLen (clean_poi_data chunks) ≤ (chunks.map List.length).sum)
    ∧ ∀ rows : List AttrRow,
        (clean_attractions_data rows).length ≤ rows.length := by
  refine ⟨?_, ?_, ?_⟩
  · intro chunks
    rw [clean_flight_data]
    cases hm : chunks.map fun c => cleanFlightChunk c.1 c.2.1 c.2.2 with
    | nil => exact Nat.zero_le _
    | cons a as =>
      show ((a :: as).flatten).length ≤ _
      rw [← hm]
      exact flight_flatten_le chunks
  · intro chunks
    rw [clean_poi_data]
    cases hm : (chunks.map cleanPoiChunk).filter fun c => 0 < c.length with
    | nil => exact Nat.zero_le _
    | cons a as =>
      show ((a :: as).flatten).length ≤ _
      rw [← hm]
      exact poi_flatten_le chunks
  · intro rows
    rw [clean_attractions_data, List.length_map]
    exact dedup_length rows

/-- C6: for a chunk whose DepDelay (resp. ArrDelay) column has a defined,
strictly positive standard deviation σ and mean μ over its non-missing
values, every non-missing cleaned value of that column lies in
[μ - 3σ, μ + 3σ]; the bounds come from this chunk alone, and out-of-range
values are clipped exactly to the nearest bound (never dropped — see C9 for
the only row-dropping step). σ is pinned as the non-negative square root of
the column's sample variance. -/
theorem C6_delay_clipping (xs : List FlightRow) (σd σa vd va : ℚ)
    (hvd : sampleVar (depVals (dedup xs)) = some vd)
    (hσd : σd * σd = vd) (hσd0 : 0 < σd)
    (hva : sampleVar (arrVals (dedup xs)) = some va)
    (hσa : σa * σa = va) (hσa0 : 0 < σa) :
    (∀ r ∈ cleanFlightChunk xs σd σa,
      (∀ y : ℚ, r.depDelay = some y →
        listMean (depVals (dedup xs)) - 3 * σd ≤ y
        ∧ y ≤ listMean (depVals (dedup xs)) + 3 * σd)
      ∧ (∀ y : ℚ, r.arrDelay = some y →
        listMean (arrVals (dedup xs)) - 3 * σa ≤ y
        ∧ y ≤ listMean (arrVals (dedup xs)) + 3 * σa))
    ∧ (∀ x lo hi : ℚ, lo ≤ hi →
        (x < lo → clip lo hi x = lo) ∧ (hi < x → clip lo hi x = hi)
        ∧ (lo ≤ x → x ≤ hi → clip lo hi x = x)) := by
  constructor
  · intro r hr
    have hr' : r ∈ (dedup xs).map (transformFlightRow (flightStats (dedup xs) σd σa)) :=
      List.mem_of_mem_filter hr
    obtain ⟨a, _, rfl⟩ := List.mem_map.mp hr'
    constructor
    · intro y hy
      rw [transform_depDelay] at hy
      have hg : (flightStats (dedup xs) σd σa).depG = true := by
        simp [flightStats, hvd, hσd0]
      rw [applyClip, if_pos hg] at hy
      obtain ⟨x, -, rfl⟩ := Option.map_eq_some'.mp hy
      have hlh : (flightStats (dedup xs) σd σa).dLo
          ≤ (flightStats (dedup xs) σd σa).dHi := by
        rw [flightStats_dLo, flightStats_dHi]; linarith
      have h1 := le_clip (flightStats (dedup xs) σd σa).dLo
        (flightStats (dedup xs) σd σa).dHi x hlh
      have h2 := clip_le (flightStats (dedup xs) σd σa).dLo
        (flightStats (dedup xs) σd σa).dHi x
      rw [flightStats_dLo] at h1
      rw [flightStats_dHi] at h2
      rw [flightStats_dLo, flightStats_dHi]
      exact ⟨h1, h2⟩
    · intro y hy
      rw [transform_arrDelay] at hy
      have hg : (flightStats (dedup xs) σd σa).arrG = true := by
        simp [flightStats, hva, hσa0]
      rw [applyClip, if_pos hg] at hy
      obtain ⟨x, -, rfl⟩ := Option.map_eq_some'.mp hy
      have hlh : (flightStats (dedup xs) σd σa).aLo
          ≤ (flightStats (dedup xs) σd σa).aHi := by
        rw [flightStats_aLo, flightStats_aHi]; linarith
      have h1 := le_clip (flightStats (dedup xs) σd σa).aLo
        (flightStats (dedup xs) σd σa).aHi x hlh
      have h2 := clip_le (flightStats (dedup xs) σd σa).aLo
        (flightStats (dedup xs) σd σa).aHi x
      rw [flightStats_aLo] at h1
      rw [flightStats_aHi] at h2
      rw [flightStats_aLo, flightStats_aHi]
      exact ⟨h1, h2⟩
  · intro x lo hi hlh
    refine ⟨?_, ?_, ?_⟩
    · intro hx
      rw [clip, max_eq_right hx.le, min_eq_left hlh]
    · intro hx
      rw [clip, min_eq_right]
      exact le_max_of_le_left hx.le
    · intro hx1 hx2
      rw [clip, max_eq_left hx1, min_eq_left hx2]

/-- C6 witness: the clip rule of C6 applied through a concrete chunk whose
delay columns have mean 2 and standard deviation exactly 2. -/
theorem C6_witness : clip 0 1 5 = 1 := by
  have hd : dedup flightChunkW = flightChunkW := by decide
  have hdep : depVals flightChunkW = [0, 2, 4] := by decide
  have harr : arrVals flightChunkW = [0, 2, 4] := by decide
  have hsv : sampleVar [(0 : ℚ), 2, 4] = some 4 := by
    rw [sampleVar, if_pos (by norm_num)]
    norm_num [listMean, List.sum_cons]
  have h := C6_delay_clipping flightChunkW 2 2 4 4
      (by rw [hd, hdep]; exact hsv) (by norm_num) (by norm_num)
      (by rw [hd, harr]; exact hsv) (by norm_num) (by norm_num)
  exact (h.2 5 0 1 (by norm_num)).2.1 (by norm_num)

/-- C9: in a flight chunk the critical-missing-values drop removes exactly
the rows whose FlightDate failed to parse: after the text coercion the
Origin/Dest columns are never missing (a missing cell became the literal
"NAN"), so no row is dropped for a missing Origin or Dest, and a row with a
missing Origin survives with Origin = "NAN" and a Route starting "NAN-". -/
theorem C9_missing_origin (xs : List FlightRow) (σd σa : ℚ) :
    (cleanFlightChunk xs σd σa).length
      = ((dedup xs).filter fun r => r.flightDate.isSome).length
    ∧ (∀ r ∈ cleanFlightChunk xs σd σa, r.origin.isSome = true ∧ r.dest.isSome = true)
    ∧ ∀ r ∈ dedup xs, r.flightDate.isSome = true → r.origin = none →
        transformFlightRow (flightStats (dedup xs) σd σa) r ∈ cleanFlightChunk xs σd σa
        ∧ (transformFlightRow (flightStats (dedup xs) σd σa) r).origin = some "NAN"
        ∧ (transformFlightRow (flightStats (dedup xs) σd σa) r).route
            = some ("NAN-" ++ pyUpper (pyStrip (pyStr r.dest))) := by
  have hnan : pyUpper (pyStrip (pyStr (none : Option String))) = "NAN" := by decide
  refine ⟨dropna_map_length _ _, ?_, ?_⟩
  · intro r hr
    obtain ⟨a, -, rfl⟩ := List.mem_map.mp (List.mem_of_mem_filter hr)
    exact ⟨rfl, rfl⟩
  · intro r hmem hdate horig
    refine ⟨?_, ?_, ?_⟩
    · refine List.mem_filter.mpr ⟨List.mem_map_of_mem _ hmem, ?_⟩
      rw [transform_flightDate, transform_origin, transform_dest]
      simp only [Option.isSome_some, Bool.and_true, hdate]
    · rw [transform_origin, horig, hnan]
    · rw [transform_route, horig, hnan,
        show ("NAN" ++ "-" : String) = "NAN-" by decide]

/-- C9 witness: a concrete one-row chunk whose Origin cell is missing: the
cleaned row carries the literal string "NAN" as Origin. -/
theorem C9_witness :
    (transformFlightRow (flightStats (dedup [flightRowNoOrigin]) 1 1)
        flightRowNoOrigin).origin = some "NAN" :=
  ((C9_missing_origin [flightRowNoOrigin] 1 1).2.2 flightRowNoOrigin
    (by decide) (by decide) rfl).2.1

end Pipeline
